import Mathlib

/-!
Shallow embedding of `src/ReStreamYoutube.py` (Kavex/ReStreamYoutube).

The program is a single-file desktop app that picks the most recently
modified `.mp4` file in a user-selected folder and spawns an `ffmpeg`
child process streaming it to `<YOUTUBE_URL>/<STREAM_KEY>`, where both
values come from a JSON config file.

Modelling conventions:
* Machine state (`VIDEO_FOLDER`, `ffmpeg_process`, the status label, the
  persisted config file, the module-level cached config values) is an
  explicit `AppState` record; the Python globals become its fields.
* Side effects (spawning a process, terminating one, showing dialogs)
  are returned as an explicit `Effect` list.
* Filesystem access is passed in: `listdir : String → Except OSError (List Entry)`
  models `os.listdir` together with `os.path.getmtime` (an entry carries
  its name and last-modified timestamp); `Except.error` models a raised
  `OSError` (permission denied, not a directory, ...), which the Python
  code does not catch, so it propagates out of the function.
* The config file content is modelled as `Option Config`: `json.dump`
  followed by `json.load` on a flat two-string-field record is the
  identity, so the file is represented by the record it holds
  (`none` = file does not exist; reading it raises `FileNotFoundError`).
-/

/-- A directory entry as seen by `os.listdir` + `os.path.getmtime`:
its bare name and its last-modified timestamp. -/
structure Entry where
  name : String
  mtime : Nat
deriving DecidableEq, Repr

/-- A raised `OSError` (the Python code never catches these). -/
inductive OSError where
  | fileNotFound
  | permissionDenied
  | notADirectory
  | other (msg : String)
deriving DecidableEq, Repr

/-- The persisted settings record (`config.json`):
`{"YOUTUBE_URL": ..., "STREAM_KEY": ...}`. -/
structure Config where
  YOUTUBE_URL : String
  STREAM_KEY : String
deriving DecidableEq, Repr

/-- Lines 16-19: the default config values. -/
def default_config : Config :=
  { YOUTUBE_URL := "rtmp://a.rtmp.youtube.com/live2", STREAM_KEY := "" }

/-- The config file on disk: `none` when `CONFIG_FILE` does not exist,
`some c` when it exists and holds record `c` (JSON round-trips the
flat two-string record exactly). -/
abbrev ConfigFS := Option Config

/-- Lines 26-29, `load_config`: opens `CONFIG_FILE` and `json.load`s it.
If the file does not exist, `open(..., "r")` raises `FileNotFoundError`. -/
def load_config : ConfigFS → Except OSError Config
  | none => Except.error OSError.fileNotFound
  | some c => Except.ok c

/-- Lines 31-35, `save_config`: overwrites `CONFIG_FILE` with the record
`{"YOUTUBE_URL": yt_url, "STREAM_KEY": stream_key}`. -/
def save_config (yt_url stream_key : String) (_fs : ConfigFS) : ConfigFS :=
  some { YOUTUBE_URL := yt_url, STREAM_KEY := stream_key }

/-- Lines 22-24 then 26-29: the module-level "Load or create config file"
step (write `default_config` if `CONFIG_FILE` is absent), which always
runs before the first `load_config()` call at line 45. -/
def ensure_config_file : ConfigFS → ConfigFS
  | none => some default_config
  | some c => some c

/-- Python's `str.endswith(suffix)`: a case-sensitive test that the
character sequence `suf` is a suffix of the character sequence of `s`. -/
def str_endswith (s suf : String) : Bool :=
  List.isSuffixOf suf.data s.data

/-- Python's `max(xs, key=k)` over a non-empty list, expressed as a fold
over `acc :: rest`: it keeps the current best and replaces it only on a
strictly larger key, so the first maximal element wins ties. -/
def pythonMaxBy (key : Entry → Nat) : Entry → List Entry → Entry
  | acc, [] => acc
  | acc, x :: xs => pythonMaxBy key (if key x > key acc then x else acc) xs

/-- Lines 61-66, `get_newest_mp4`: `if not folder: return None`; then
`mp4_files = [join(folder, f) for f in os.listdir(folder) if f.endswith(".mp4")]`
(direct entries only, case-sensitive suffix test on the bare name);
returns `max(mp4_files, key=os.path.getmtime)` when non-empty, else
`None`. An `OSError` raised by `os.listdir` is not caught and
propagates. The result is given as the selected `Entry` (its joined
path is `folder ++ "/" ++ name`, whose mtime is the entry's mtime). -/
def get_newest_mp4 (folder : String)
    (listdir : String → Except OSError (List Entry)) :
    Except OSError (Option Entry) :=
  if folder = "" then Except.ok none
  else
    match listdir folder with
    | Except.error e => Except.error e
    | Except.ok entries =>
      match entries.filter (fun f => str_endswith f.name ".mp4") with
      | [] => Except.ok none
      | m :: ms => Except.ok (some (pythonMaxBy Entry.mtime m ms))

/-- The status label (`stream_status_label`) as an observable enum:
`notStarted` = "Stream Status: Not Started" (initial),
`streaming f` = "Streaming: {basename}", `stopped` = "Stream Stopped". -/
inductive Status where
  | notStarted
  | streaming (fileName : String)
  | stopped
deriving DecidableEq, Repr

/-- The program's mutable state: the module globals `VIDEO_FOLDER` (line 50),
`ffmpeg_process` (line 51, process handles modelled as pids), the status
label, the config file on disk, and the module-level values
`YOUTUBE_URL` / `STREAM_KEY` cached at startup (lines 46-47). -/
structure AppState where
  VIDEO_FOLDER : String
  ffmpeg_process : Option Nat
  status : Status
  configFile : ConfigFS
  cached_YOUTUBE_URL : String
  cached_STREAM_KEY : String
deriving DecidableEq, Repr

/-- An externally observable side effect of an operation. -/
inductive Effect where
  | spawned (cmd : List String) (pid : Nat)
  | terminated (pid : Nat)
  | errorDialog (title msg : String)
  | warnDialog (title msg : String)
  | infoDialog (title msg : String)
deriving DecidableEq, Repr

/-- Lines 90-109: the fixed ffmpeg argument list. Its single output sink
is the final argument `youtube_url ++ "/" ++ stream_key` (the Python
f-string at line 108), placed after the `-f flv` format flag. -/
def ffmpeg_command (newest_mp4 youtube_url stream_key : String) : List String :=
  ["ffmpeg", "-re", "-i", newest_mp4, "-s", "1920x1080", "-r", "30",
   "-c:v", "libx264", "-preset", "veryfast", "-b:v", "4500k",
   "-maxrate", "5000k", "-bufsize", "10000k", "-pix_fmt", "yuv420p",
   "-g", "60", "-c:a", "aac", "-b:a", "192k", "-ac", "2", "-ar", "44100",
   "-f", "flv", youtube_url ++ "/" ++ stream_key]

/-- Lines 68-113, `start_stream`. Checks `VIDEO_FOLDER`, asks
`get_newest_mp4` for a candidate (a raised `OSError` propagates),
re-loads the config from disk (line 82; a raised error propagates),
rejects an empty `STREAM_KEY`, otherwise spawns ffmpeg with a fresh pid,
stores the handle in `ffmpeg_process`, and sets the status label to
`Streaming: {basename}` — `os.path.basename(os.path.join(folder, f))`
is the bare entry name `f` for slash-free direct entry names. -/
def start_stream (s : AppState)
    (listdir : String → Except OSError (List Entry))
    (freshPid : Nat) : Except OSError (AppState × List Effect) :=
  if s.VIDEO_FOLDER = "" then
    Except.ok (s, [Effect.errorDialog "Error" "Please select a folder first!"])
  else
    match get_newest_mp4 s.VIDEO_FOLDER listdir with
    | Except.error e => Except.error e
    | Except.ok none =>
      Except.ok (s, [Effect.warnDialog "No MP4 Found"
        "No MP4 files found in the selected folder."])
    | Except.ok (some newest) =>
      match load_config s.configFile with
      | Except.error e => Except.error e
      | Except.ok config =>
        if config.STREAM_KEY = "" then
          Except.ok (s, [Effect.errorDialog "Error"
            "Stream Key is missing! Set it in Settings."])
        else
          Except.ok
            ({ s with
                ffmpeg_process := some freshPid,
                status := Status.streaming newest.name },
             [Effect.spawned
                (ffmpeg_command (s.VIDEO_FOLDER ++ "/" ++ newest.name)
                  config.YOUTUBE_URL config.STREAM_KEY)
                freshPid])

/-- Lines 115-122, `stop_stream`: if a handle is held, terminate it,
clear the global, set the label to "Stream Stopped" and show an info
dialog; otherwise do nothing. -/
def stop_stream (s : AppState) : AppState × List Effect :=
  match s.ffmpeg_process with
  | none => (s, [])
  | some pid =>
    ({ s with ffmpeg_process := none, status := Status.stopped },
     [Effect.terminated pid,
      Effect.infoDialog "Stream Stopped" "The stream has been stopped."])

/-- Program startup (lines 22-24, 45-51): create the config file if
absent, load it into the cached module globals, start with no folder,
no process and the "Not Started" label. -/
def initial_state (fs0 : ConfigFS) : AppState :=
  let fs1 := ensure_config_file fs0
  let c := match fs1 with
    | some c => c
    | none => default_config
  { VIDEO_FOLDER := ""
    ffmpeg_process := none
    status := Status.notStarted
    configFile := fs1
    cached_YOUTUBE_URL := c.YOUTUBE_URL
    cached_STREAM_KEY := c.STREAM_KEY }

/-- The state after a call that may raise: on a raised exception the
globals are untouched (no assignment has happened before the raise), so
the state is the pre-call state. -/
def result_state (s : AppState) : Except OSError (AppState × List Effect) → AppState
  | Except.error _ => s
  | Except.ok (s', _) => s'

/-- The supervisor invariant: a process handle is held iff the observable
status is `Streaming(fileName)`. -/
def StreamInv (s : AppState) : Prop :=
  s.ffmpeg_process.isSome ↔ ∃ f, s.status = Status.streaming f

/-- Demo directory contents used to exercise the definitions on concrete
inputs: two `.mp4` files (the newer is `b.mp4`) and a non-matching file
with the largest timestamp (which must be ignored by the filter). -/
def demoEntries : List Entry :=
  [Entry.mk "a.mp4" 5, Entry.mk "b.mp4" 9, Entry.mk "c.txt" 99]

/-- A concrete filesystem: `"vids"` holds `demoEntries`, `"docs"` holds no
`.mp4` file, and every other path raises `PermissionError`. -/
def demoListdir : String → Except OSError (List Entry) :=
  fun p =>
    if p = "vids" then Except.ok demoEntries
    else if p = "docs" then Except.ok [Entry.mk "notes.txt" 3]
    else Except.error OSError.permissionDenied

/-- A concrete persisted settings record with a non-empty key. -/
def demoConfig : Config :=
  { YOUTUBE_URL := "rtmp://host/live2", STREAM_KEY := "secret123" }

/-- A concrete idle state: folder `"vids"` selected, `demoConfig` on
disk, and deliberately stale cached startup values. -/
def demoState : AppState :=
  { VIDEO_FOLDER := "vids"
    ffmpeg_process := none
    status := Status.notStarted
    configFile := some demoConfig
    cached_YOUTUBE_URL := "rtmp://stale/cached"
    cached_STREAM_KEY := "staleKey" }

/-- `demoState` with an empty stream key persisted on disk. -/
def demoEmptyKeyState : AppState :=
  { demoState with
    configFile := some { YOUTUBE_URL := "rtmp://host/live2", STREAM_KEY := "" } }

/-- `demoState` pointed at the folder with no `.mp4` files. -/
def demoDocsState : AppState :=
  { demoState with VIDEO_FOLDER := "docs" }

/-- `demoState` with a stream already active (handle 5). -/
def demoStreamingState : AppState :=
  { demoState with ffmpeg_process := some 5,
                   status := Status.streaming "old.mp4" }

/-- `pythonMaxBy` picks an element of `acc :: l`. -/
theorem pythonMaxBy_mem (key : Entry → Nat) (l : List Entry) :
    ∀ acc : Entry, pythonMaxBy key acc l ∈ acc :: l := by
  induction l with
  | nil => intro acc; simp [pythonMaxBy]
  | cons x xs ih =>
    intro acc
    simp only [pythonMaxBy]
    have h := ih (if key x > key acc then x else acc)
    rcases List.mem_cons.mp h with h1 | h2
    · rw [h1]
      split
      · exact List.mem_cons_of_mem _ (List.mem_cons_self _ _)
      · exact List.mem_cons_self _ _
    · exact List.mem_cons_of_mem _ (List.mem_cons_of_mem _ h2)

/-- `pythonMaxBy` dominates the accumulator and every list element. -/
theorem pythonMaxBy_ge (key : Entry → Nat) (l : List Entry) :
    ∀ acc : Entry, key acc ≤ key (pythonMaxBy key acc l) ∧
      ∀ x ∈ l, key x ≤ key (pythonMaxBy key acc l) := by
  induction l with
  | nil =>
    intro acc
    exact ⟨Nat.le_refl _, by intro x hx; cases hx⟩
  | cons y ys ih =>
    intro acc
    have h := ih (if key y > key acc then y else acc)
    constructor
    · refine Nat.le_trans ?_ h.1
      split
      · exact Nat.le_of_lt (by assumption)
      · exact Nat.le_refl _
    · intro x hx
      rcases List.mem_cons.mp hx with rfl | hx2
      · refine Nat.le_trans ?_ h.1
        split
        · exact Nat.le_refl _
        · exact Nat.le_of_not_lt (by assumption)
      · exact h.2 x hx2

/-- C2: for a readable, non-empty folder, `get_newest_mp4` considers
exactly the direct entries whose names end in `".mp4"` (case-sensitive);
if that filtered set is empty it returns `none` without error, and
otherwise it returns an entry of the filtered set whose mtime is the
maximum over the set. -/
theorem get_newest_mp4_newest (folder : String)
    (listdir : String → Except OSError (List Entry)) (entries : List Entry)
    (hne : folder ≠ "") (hls : listdir folder = Except.ok entries) :
    (entries.filter (fun f => str_endswith f.name ".mp4") = [] →
      get_newest_mp4 folder listdir = Except.ok none) ∧
    ∀ e0 es, entries.filter (fun f => str_endswith f.name ".mp4") = e0 :: es →
      ∃ e, get_newest_mp4 folder listdir = Except.ok (some e) ∧
        e ∈ e0 :: es ∧ ∀ x ∈ e0 :: es, x.mtime ≤ e.mtime := by
  have hred : get_newest_mp4 folder listdir =
      match entries.filter (fun f => str_endswith f.name ".mp4") with
      | [] => Except.ok none
      | m :: ms => Except.ok (some (pythonMaxBy Entry.mtime m ms)) := by
    unfold get_newest_mp4
    rw [if_neg hne, hls]
  constructor
  · intro hnil
    rw [hred, hnil]
  · intro e0 es hcons
    rw [hred, hcons]
    refine ⟨pythonMaxBy Entry.mtime e0 es, rfl, pythonMaxBy_mem _ _ _, ?_⟩
    intro x hx
    rcases List.mem_cons.mp hx with h1 | hx2
    · rw [h1]
      exact (pythonMaxBy_ge Entry.mtime es e0).1
    · exact (pythonMaxBy_ge Entry.mtime es e0).2 x hx2

/-- Witness for C2: on the concrete folder `"vids"` the selector returns
an entry of the matching set with the maximal timestamp, and on `"docs"`
(no matching file) it returns `none`. -/
theorem get_newest_mp4_newest_witness :
    (∃ e, get_newest_mp4 "vids" demoListdir = Except.ok (some e) ∧
      e ∈ [Entry.mk "a.mp4" 5, Entry.mk "b.mp4" 9] ∧
      ∀ x ∈ [Entry.mk "a.mp4" 5, Entry.mk "b.mp4" 9], x.mtime ≤ e.mtime) ∧
    get_newest_mp4 "docs" demoListdir = Except.ok none := by
  constructor
  · exact (get_newest_mp4_newest "vids" demoListdir demoEntries (by decide)
      rfl).2 (Entry.mk "a.mp4" 5) [Entry.mk "b.mp4" 9] (by decide)
  · exact (get_newest_mp4_newest "docs" demoListdir [Entry.mk "notes.txt" 3]
      (by decide) rfl).1 (by decide)

/-- C9: for a non-empty folder on which `os.listdir` raises an `OSError`
(unreadable, not a directory, ...), `get_newest_mp4` propagates that
error — an outcome distinct from the `Except.ok none` it returns when no
folder has been selected. -/
theorem get_newest_mp4_folder_error (folder : String)
    (listdir : String → Except OSError (List Entry)) (e : OSError)
    (hne : folder ≠ "") (herr : listdir folder = Except.error e) :
    get_newest_mp4 folder listdir = Except.error e ∧
    get_newest_mp4 folder listdir ≠ Except.ok none := by
  have h : get_newest_mp4 folder listdir = Except.error e := by
    unfold get_newest_mp4
    rw [if_neg hne, herr]
  refine ⟨h, ?_⟩
  rw [h]
  intro hcontra
  cases hcontra

/-- Witness for C9: reading the unreadable folder `"locked"` propagates
`PermissionError`. -/
theorem get_newest_mp4_folder_error_witness :
    get_newest_mp4 "locked" demoListdir = Except.error OSError.permissionDenied ∧
    get_newest_mp4 "locked" demoListdir ≠ Except.ok none :=
  get_newest_mp4_folder_error "locked" demoListdir OSError.permissionDenied
    (by decide) rfl

/-- C7: saving a settings record and then loading returns the same
record (save followed by load is the identity), for every record
including one with an empty stream key, and whatever the prior file
state was. -/
theorem save_then_load_roundtrip (s : Config) (fs : ConfigFS) :
    load_config (save_config s.YOUTUBE_URL s.STREAM_KEY fs) = Except.ok s := by
  cases s
  rfl

/-- C8: on first run (no settings file), the program's load-or-create
step writes the default record to disk and the subsequent load returns
exactly that default, whose content is the well-known live-ingest base
URL and the empty stream key. -/
theorem first_run_defaults :
    ensure_config_file none = some default_config ∧
    load_config (ensure_config_file none) = Except.ok default_config ∧
    default_config =
      Config.mk "rtmp://a.rtmp.youtube.com/live2" "" :=
  ⟨rfl, rfl, rfl⟩

/-- Characterisation of any `start_stream` call whose effect list contains
a spawn: it must have taken the success path, so the selector produced a
file, the re-loaded config has a non-empty key, the effect list is
exactly one spawn of the ffmpeg command built from the re-loaded config,
and the new state holds the fresh pid with a `Streaming` status. -/
theorem start_stream_spawn_inv (s : AppState)
    (listdir : String → Except OSError (List Entry)) (freshPid : Nat)
    (s' : AppState) (effs : List Effect) (cmd : List String) (p : Nat)
    (hok : start_stream s listdir freshPid = Except.ok (s', effs))
    (hsp : Effect.spawned cmd p ∈ effs) :
    ∃ newest c,
      get_newest_mp4 s.VIDEO_FOLDER listdir = Except.ok (some newest) ∧
      load_config s.configFile = Except.ok c ∧
      c.STREAM_KEY ≠ "" ∧
      p = freshPid ∧
      cmd = ffmpeg_command (s.VIDEO_FOLDER ++ "/" ++ newest.name)
        c.YOUTUBE_URL c.STREAM_KEY ∧
      effs = [Effect.spawned cmd p] ∧
      s' = { s with ffmpeg_process := some freshPid,
                    status := Status.streaming newest.name } := by
  unfold start_stream at hok
  by_cases hf : s.VIDEO_FOLDER = ""
  · rw [if_pos hf] at hok
    obtain ⟨h1, h2⟩ := Prod.mk.injEq .. ▸ (Except.ok.injEq .. ▸ hok)
    rw [← h2] at hsp
    simp at hsp
  · rw [if_neg hf] at hok
    cases hnew : get_newest_mp4 s.VIDEO_FOLDER listdir with
    | error e =>
      rw [hnew] at hok
      cases hok
    | ok o =>
      rw [hnew] at hok
      cases o with
      | none =>
        simp only [] at hok
        obtain ⟨h1, h2⟩ := Prod.mk.injEq .. ▸ (Except.ok.injEq .. ▸ hok)
        rw [← h2] at hsp
        simp at hsp
      | some newest =>
        simp only [] at hok
        cases hcfg : load_config s.configFile with
        | error e =>
          rw [hcfg] at hok
          cases hok
        | ok c =>
          rw [hcfg] at hok
          simp only [] at hok
          by_cases hkey : c.STREAM_KEY = ""
          · rw [if_pos hkey] at hok
            obtain ⟨h1, h2⟩ := Prod.mk.injEq .. ▸ (Except.ok.injEq .. ▸ hok)
            rw [← h2] at hsp
            simp at hsp
          · rw [if_neg hkey] at hok
            obtain ⟨h1, h2⟩ := Prod.mk.injEq .. ▸ (Except.ok.injEq .. ▸ hok)
            have hcp : cmd = ffmpeg_command (s.VIDEO_FOLDER ++ "/" ++ newest.name)
                c.YOUTUBE_URL c.STREAM_KEY ∧ p = freshPid := by
              rw [← h2] at hsp
              simp only [List.mem_singleton] at hsp
              exact ⟨(Effect.spawned.injEq .. ▸ hsp).1,
                     (Effect.spawned.injEq .. ▸ hsp).2⟩
            refine ⟨newest, c, rfl, rfl, hkey, hcp.2, hcp.1, ?_, h1.symm⟩
            rw [← h2, hcp.1, hcp.2]

/-- `start_stream` reads only `VIDEO_FOLDER` and the config file from the
state: two states agreeing on those produce the same effects (in
particular the cached startup values `cached_YOUTUBE_URL` /
`cached_STREAM_KEY` never influence the spawned command). -/
theorem start_stream_effects_congr (s t : AppState)
    (listdir : String → Except OSError (List Entry)) (freshPid : Nat)
    (h1 : t.VIDEO_FOLDER = s.VIDEO_FOLDER) (h2 : t.configFile = s.configFile) :
    Except.map Prod.snd (start_stream t listdir freshPid)
      = Except.map Prod.snd (start_stream s listdir freshPid) := by
  unfold start_stream
  rw [h1, h2]
  by_cases hf : s.VIDEO_FOLDER = ""
  · simp only [if_pos hf]
    rfl
  · simp only [if_neg hf]
    cases hnew : get_newest_mp4 s.VIDEO_FOLDER listdir with
    | error e => rfl
    | ok o =>
      cases o with
      | none => rfl
      | some newest =>
        cases hcfg : load_config s.configFile with
        | error e => rfl
        | ok c =>
          by_cases hkey : c.STREAM_KEY = ""
          · simp only [if_pos hkey]
            rfl
          · simp only [if_neg hkey]
            rfl

/-- C1: every `start_stream` call that passes its precondition checks
spawns the transcoder with exactly one output target, the concatenation
`destinationBaseUrl ++ "/" ++ streamKey` of the values re-read from the
persisted settings record at the moment of the call; the startup-cached
values never influence the spawned command (the effects are unchanged
under arbitrary cached values). -/
theorem start_stream_output_target (s : AppState)
    (listdir : String → Except OSError (List Entry)) (freshPid : Nat)
    (c : Config) (s' : AppState) (effs : List Effect)
    (cmd : List String) (p : Nat)
    (hc : s.configFile = some c)
    (hok : start_stream s listdir freshPid = Except.ok (s', effs))
    (hsp : Effect.spawned cmd p ∈ effs) :
    (∃ src front,
      effs = [Effect.spawned (ffmpeg_command src c.YOUTUBE_URL c.STREAM_KEY) p] ∧
      ffmpeg_command src c.YOUTUBE_URL c.STREAM_KEY
        = front ++ ["-f", "flv", c.YOUTUBE_URL ++ "/" ++ c.STREAM_KEY]) ∧
    ∀ u k : String,
      Except.map Prod.snd
        (start_stream
          { s with cached_YOUTUBE_URL := u, cached_STREAM_KEY := k }
          listdir freshPid)
        = Except.ok effs := by
  obtain ⟨newest, c2, hnew, hload, hkey, hp, hcmd, heffs, hs'⟩ :=
    start_stream_spawn_inv s listdir freshPid s' effs cmd p hok hsp
  have hc2 : c2 = c := by
    rw [hc] at hload
    simp only [load_config, Except.ok.injEq] at hload
    exact hload.symm
  subst hc2
  constructor
  · refine ⟨s.VIDEO_FOLDER ++ "/" ++ newest.name,
      ["ffmpeg", "-re", "-i", s.VIDEO_FOLDER ++ "/" ++ newest.name,
       "-s", "1920x1080", "-r", "30", "-c:v", "libx264", "-preset",
       "veryfast", "-b:v", "4500k", "-maxrate", "5000k", "-bufsize",
       "10000k", "-pix_fmt", "yuv420p", "-g", "60", "-c:a", "aac",
       "-b:a", "192k", "-ac", "2", "-ar", "44100"], ?_, rfl⟩
    rw [heffs, hcmd]
  · intro u k
    rw [start_stream_effects_congr s
      { s with cached_YOUTUBE_URL := u, cached_STREAM_KEY := k }
      listdir freshPid rfl rfl, hok]
    rfl

/-- Witness for C1 at a concrete state: the persisted config is
`demoConfig` while the cached startup values are stale, and the spawned
command targets `demoConfig`'s URL-slash-key. -/
theorem start_stream_output_target_witness :
    (∃ src front,
      ([Effect.spawned (ffmpeg_command "vids/b.mp4"
          demoConfig.YOUTUBE_URL demoConfig.STREAM_KEY) 77] : List Effect)
        = [Effect.spawned (ffmpeg_command src
            demoConfig.YOUTUBE_URL demoConfig.STREAM_KEY) 77] ∧
      ffmpeg_command src demoConfig.YOUTUBE_URL demoConfig.STREAM_KEY
        = front ++ ["-f", "flv",
            demoConfig.YOUTUBE_URL ++ "/" ++ demoConfig.STREAM_KEY]) ∧
    ∀ u k : String,
      Except.map Prod.snd
        (start_stream
          { demoState with cached_YOUTUBE_URL := u, cached_STREAM_KEY := k }
          demoListdir 77)
        = Except.ok [Effect.spawned (ffmpeg_command "vids/b.mp4"
            demoConfig.YOUTUBE_URL demoConfig.STREAM_KEY) 77] :=
  start_stream_output_target demoState demoListdir 77 demoConfig
    { demoState with ffmpeg_process := some 77,
                     status := Status.streaming "b.mp4" }
    [Effect.spawned (ffmpeg_command "vids/b.mp4"
      demoConfig.YOUTUBE_URL demoConfig.STREAM_KEY) 77]
    (ffmpeg_command "vids/b.mp4" demoConfig.YOUTUBE_URL demoConfig.STREAM_KEY)
    77 rfl rfl (List.mem_singleton.mpr rfl)

/-- C3: when the precondition checks reach the re-loaded settings and
the re-loaded stream key is empty, `start_stream` shows the missing-key
error dialog, spawns no process, and returns the state exactly as it was
(handle and status unchanged). -/
theorem start_stream_missing_key (s : AppState)
    (listdir : String → Except OSError (List Entry)) (freshPid : Nat)
    (c : Config) (en : Entry)
    (hf : s.VIDEO_FOLDER ≠ "")
    (hnew : get_newest_mp4 s.VIDEO_FOLDER listdir = Except.ok (some en))
    (hc : s.configFile = some c) (hkey : c.STREAM_KEY = "") :
    start_stream s listdir freshPid =
      Except.ok (s, [Effect.errorDialog "Error"
        "Stream Key is missing! Set it in Settings."]) ∧
    ∀ cmd q, Effect.spawned cmd q ∉
      ([Effect.errorDialog "Error"
        "Stream Key is missing! Set it in Settings."] : List Effect) := by
  constructor
  · unfold start_stream
    rw [if_neg hf, hnew, hc]
    simp only [load_config, if_pos hkey]
  · intro cmd q h
    simp at h

/-- Witness for C3: starting from the concrete state whose persisted
stream key is empty fails with the dialog and leaves the state intact. -/
theorem start_stream_missing_key_witness :
    start_stream demoEmptyKeyState demoListdir 77 =
      Except.ok (demoEmptyKeyState, [Effect.errorDialog "Error"
        "Stream Key is missing! Set it in Settings."]) ∧
    ∀ cmd q, Effect.spawned cmd q ∉
      ([Effect.errorDialog "Error"
        "Stream Key is missing! Set it in Settings."] : List Effect) :=
  start_stream_missing_key demoEmptyKeyState demoListdir 77
    (Config.mk "rtmp://host/live2" "") (Entry.mk "b.mp4" 9)
    (by decide) rfl rfl rfl

/-- C4: when a folder is selected but the newest-file selector yields
`none`, `start_stream` shows the no-MP4 warning, spawns no process, and
returns the state exactly as it was (handle and status unchanged). -/
theorem start_stream_no_media (s : AppState)
    (listdir : String → Except OSError (List Entry)) (freshPid : Nat)
    (hf : s.VIDEO_FOLDER ≠ "")
    (hnone : get_newest_mp4 s.VIDEO_FOLDER listdir = Except.ok none) :
    start_stream s listdir freshPid =
      Except.ok (s, [Effect.warnDialog "No MP4 Found"
        "No MP4 files found in the selected folder."]) ∧
    ∀ cmd q, Effect.spawned cmd q ∉
      ([Effect.warnDialog "No MP4 Found"
        "No MP4 files found in the selected folder."] : List Effect) := by
  constructor
  · unfold start_stream
    rw [if_neg hf, hnone]
  · intro cmd q h
    simp at h

/-- Witness for C4: the concrete folder `"docs"` holds no `.mp4` file,
so the call fails with the warning and the state is unchanged. -/
theorem start_stream_no_media_witness :
    start_stream demoDocsState demoListdir 77 =
      Except.ok (demoDocsState, [Effect.warnDialog "No MP4 Found"
        "No MP4 files found in the selected folder."]) ∧
    ∀ cmd q, Effect.spawned cmd q ∉
      ([Effect.warnDialog "No MP4 Found"
        "No MP4 files found in the selected folder."] : List Effect) :=
  start_stream_no_media demoDocsState demoListdir 77 (by decide) rfl

/-- C10: a successful `start_stream` performed while a handle is already
held stores the fresh handle in place of the old one and never emits a
termination for any process — the old handle is silently dropped. -/
theorem start_stream_replaces_handle (s : AppState)
    (listdir : String → Except OSError (List Entry)) (freshPid oldPid : Nat)
    (s' : AppState) (effs : List Effect) (cmd : List String) (p : Nat)
    (_hold : s.ffmpeg_process = some oldPid)
    (hok : start_stream s listdir freshPid = Except.ok (s', effs))
    (hsp : Effect.spawned cmd p ∈ effs) :
    s'.ffmpeg_process = some freshPid ∧
    ∀ q : Nat, Effect.terminated q ∉ effs := by
  obtain ⟨newest, c, hnew, hload, hkey, hp, hcmd, heffs, hs'⟩ :=
    start_stream_spawn_inv s listdir freshPid s' effs cmd p hok hsp
  constructor
  · rw [hs']
  · intro q hq
    rw [heffs] at hq
    simp at hq

/-- Witness for C10: starting from the concrete state already holding
handle 5, the successful start stores handle 77 and emits no
termination. -/
theorem start_stream_replaces_handle_witness :
    ({ demoStreamingState with ffmpeg_process := some 77,
                               status := Status.streaming "b.mp4" }
        : AppState).ffmpeg_process = some 77 ∧
    ∀ q : Nat, Effect.terminated q ∉
      ([Effect.spawned (ffmpeg_command "vids/b.mp4"
          demoConfig.YOUTUBE_URL demoConfig.STREAM_KEY) 77] : List Effect) :=
  start_stream_replaces_handle demoStreamingState demoListdir 77 5
    { demoStreamingState with ffmpeg_process := some 77,
                              status := Status.streaming "b.mp4" }
    [Effect.spawned (ffmpeg_command "vids/b.mp4"
      demoConfig.YOUTUBE_URL demoConfig.STREAM_KEY) 77]
    (ffmpeg_command "vids/b.mp4" demoConfig.YOUTUBE_URL demoConfig.STREAM_KEY)
    77 rfl rfl (List.mem_singleton.mpr rfl)

/-- C5: the invariant "a process handle is held iff the status is
`Streaming`" holds in the initial state and is preserved by
`start_stream` (success and every failure path, including a propagated
exception, which leaves the globals untouched) and by `stop_stream`. -/
theorem stream_invariant_preserved (fs0 : ConfigFS) (s : AppState)
    (listdir : String → Except OSError (List Entry)) (freshPid : Nat)
    (hinv : StreamInv s) :
    StreamInv (initial_state fs0) ∧
    StreamInv (result_state s (start_stream s listdir freshPid)) ∧
    StreamInv (stop_stream s).1 := by
  refine ⟨?_, ?_, ?_⟩
  · simp [initial_state, StreamInv]
  · unfold start_stream
    by_cases hf : s.VIDEO_FOLDER = ""
    · rw [if_pos hf]
      exact hinv
    · rw [if_neg hf]
      cases hnew : get_newest_mp4 s.VIDEO_FOLDER listdir with
      | error e => exact hinv
      | ok o =>
        cases o with
        | none => exact hinv
        | some newest =>
          cases hcfg : load_config s.configFile with
          | error e => exact hinv
          | ok c =>
            simp only []
            by_cases hkey : c.STREAM_KEY = ""
            · rw [if_pos hkey]
              exact hinv
            · rw [if_neg hkey]
              simp [result_state, StreamInv]
  · unfold stop_stream
    cases hp : s.ffmpeg_process with
    | none => exact hinv
    | some pid => simp [StreamInv]

/-- Witness for C5 at the concrete idle state: the invariant holds
initially, after a concrete (successful) start, and after stop. -/
theorem stream_invariant_preserved_witness :
    StreamInv (initial_state none) ∧
    StreamInv (result_state demoState (start_stream demoState demoListdir 77)) ∧
    StreamInv (stop_stream demoState).1 :=
  stream_invariant_preserved none demoState demoListdir 77
    (by simp [StreamInv, demoState])

/-- C6: `stop_stream` on a state holding no process handle is a no-op
that raises nothing and leaves the state (hence the status) identical,
and calling `stop_stream` twice in a row is always safe — the second
call observes the cleared handle and changes nothing. -/
theorem stop_stream_idle_noop (s t : AppState)
    (h : s.ffmpeg_process = none) :
    stop_stream s = (s, []) ∧
    stop_stream (stop_stream t).1 = ((stop_stream t).1, []) := by
  constructor
  · unfold stop_stream
    rw [h]
  · cases ht : t.ffmpeg_process with
    | none => simp [stop_stream, ht]
    | some pid => simp [stop_stream, ht]

/-- Witness for C6: stopping the concrete idle state is a no-op, and a
second stop after stopping the concrete streaming state changes
nothing. -/
theorem stop_stream_idle_noop_witness :
    stop_stream demoState = (demoState, []) ∧
    stop_stream (stop_stream demoStreamingState).1
      = ((stop_stream demoStreamingState).1, []) :=
  stop_stream_idle_noop demoState demoStreamingState rfl
